import Mathlib

/-!
Verification of the crabtrack orbital pass-prediction core.

Instants (chrono `DateTime<Utc>`) are embedded as integer milliseconds since
the Unix epoch 1970-01-01T00:00:00Z, in the proleptic Gregorian calendar,
which is chrono's calendar and resolution for the operations this code uses.
Quantities the source keeps as `f64` are embedded as exact rationals `ℚ`
where only field arithmetic and comparisons occur, and as real numbers `ℝ`
where transcendental functions (cos, atan2, asin) occur.  The external SGP4
propagator (the sgp4 crate, declared a black box by the specification) is
embedded as an oracle function from an instant to an optional sample of look
angles; a `none` result stands for a `PropagationError` at that instant.
-/

/-- Truncation of an exact rational toward zero, the semantics of the Rust
cast `as i64` applied to a (finite, in-range) floating value, and of
`chrono::Duration::num_seconds`/`num_minutes` style divisions.  The
denominator of a normalized `Rat` is positive, so `Int.tdiv num den`
truncates toward zero. -/
def ratTrunc (q : ℚ) : ℤ :=
  Int.tdiv q.num q.den

/-- Floor of an exact rational, the semantics of Rust `f64::floor`. -/
def ratFloor (q : ℚ) : ℤ :=
  q.num / (q.den : ℤ)

/-- Days from 0001-01-01 to January 1 of the given year in the proleptic
Gregorian calendar (the calendar of `chrono::NaiveDate`). -/
def yearStartDays (y : ℤ) : ℤ :=
  365 * (y - 1) + (y - 1) / 4 - (y - 1) / 100 + (y - 1) / 400

/-- Milliseconds from the Unix epoch to Y-01-01T00:00:00Z: the embedding of
`NaiveDate::from_ymd_opt(year, 1, 1).and_hms_opt(0, 0, 0).and_utc()`.
`yearStartDays 1970 = 719162`. -/
def yearStartMs (y : ℤ) : ℤ :=
  (yearStartDays y - yearStartDays 1970) * 86400000

/-- Embedding of `year_day_to_datetime` (identical copies live in main.rs and
satellite.rs): January 1 of the year plus
`Duration::milliseconds((day_of_year - 1.0) * 86400000.0 as i64)`. -/
def year_day_to_datetime (year : ℤ) (day_of_year : ℚ) : ℤ :=
  yearStartMs year + ratTrunc ((day_of_year - 1) * 86400000)

/-- chrono `DateTime::timestamp()`: whole seconds since the Unix epoch,
floor of the millisecond instant (Int `/` is floor division). -/
def timestampSec (t : ℤ) : ℤ :=
  t / 1000

/-- The proleptic-Gregorian calendar year containing a given day count
relative to 1970-01-01 (Howard Hinnant's civil-from-days construction,
keeping only the year).  `719468` realigns day 0 to 0000-03-01. -/
def civilYearFromDays (z : ℤ) : ℤ :=
  let zz := z + 719468
  let era := zz / 146097
  let doe := zz - era * 146097
  let yoe := (doe - doe / 1460 + doe / 36524 - doe / 146097) / 365
  let doy := doe - (365 * yoe + yoe / 4 - yoe / 100)
  let y := yoe + era * 400
  if 306 ≤ doy then y + 1 else y

/-- chrono `Datelike::year()` on a millisecond instant. -/
def yearOfMs (t : ℤ) : ℤ :=
  civilYearFromDays (t / 86400000)

/-- Embedding of `Satellite::calculate_minutes_since_epoch` (satellite.rs):
re-anchor the stored fractional day-of-year to whichever of the previous,
current or next calendar year of `time` gives the smallest absolute
second-level distance to `time` (ties kept on the current year), then return
the signed millisecond difference divided by 60000. -/
def calculate_minutes_since_epoch (time : ℤ) (epoch_day_of_year : ℚ) : ℚ :=
  let current_year := yearOfMs time
  let epoch_time := year_day_to_datetime current_year epoch_day_of_year
  let diff_current := |timestampSec time - timestampSec epoch_time|
  let epoch_time_prev := year_day_to_datetime (current_year - 1) epoch_day_of_year
  let diff_prev := |timestampSec time - timestampSec epoch_time_prev|
  let epoch_time_next := year_day_to_datetime (current_year + 1) epoch_day_of_year
  let diff_next := |timestampSec time - timestampSec epoch_time_next|
  let chosen :=
    if diff_prev < diff_current ∧ diff_prev < diff_next then epoch_time_prev
    else if diff_next < diff_current ∧ diff_next < diff_prev then epoch_time_next
    else epoch_time
  ((time - chosen : ℤ) : ℚ) / 60000

/-- Embedding of `calculate_minutes_since_epoch_simple` (main.rs): minutes
since the fixed parse-time epoch, `duration.num_milliseconds() / 60000.0`. -/
def calculate_minutes_since_epoch_simple (tle_epoch : ℤ) (time : ℤ) : ℚ :=
  ((time - tle_epoch : ℤ) : ℚ) / 60000

/-- Decimal digit value of a character, if it is a digit. -/
def charDigit (c : Char) : Option ℕ :=
  if c.isDigit then some (c.toNat - 48) else none

/-- Accumulate a digit string into a natural number; fails on a non-digit. -/
def digitsToNat : List Char → ℕ → Option ℕ
  | [], acc => some acc
  | c :: cs, acc =>
    match charDigit c with
    | some d => digitsToNat cs (10 * acc + d)
    | none => none

/-- Model of Rust `str::parse::<f64>` restricted to plain decimal notation
(optional sign, digits, optional fractional part), producing the exact
rational value of the decimal text.  On the 14-character TLE epoch fields
this is the value the source obtains (exactly where the decimal is f64
representable, and the infinitesimal f64 rounding otherwise cannot move the
integer year/day splits used downstream on well-formed fields). -/
def parseDecimal (cs : List Char) : Option ℚ :=
  let signBody : ℤ × List Char :=
    match cs with
    | '+' :: rest => (1, rest)
    | '-' :: rest => (-1, rest)
    | _ => (1, cs)
  let sign := signBody.1
  match signBody.2.span (fun c => c ≠ '.') with
  | (intPart, []) =>
    if intPart = [] then none
    else (digitsToNat intPart 0).map (fun n => ((sign * n : ℤ) : ℚ))
  | (intPart, _dot :: fracPart) =>
    if intPart = [] ∧ fracPart = [] then none
    else if fracPart.contains '.' then none
    else
      match digitsToNat intPart 0, digitsToNat fracPart 0 with
      | some i, some f =>
        some (mkRat (sign * ((i : ℤ) * 10 ^ fracPart.length + f)) (10 ^ fracPart.length))
      | _, _ => none

/-- Characters with surrounding whitespace removed, the model of
`str::trim`. -/
def trimChars (cs : List Char) : List Char :=
  ((cs.dropWhile (fun c => c.isWhitespace)).reverse.dropWhile (fun c => c.isWhitespace)).reverse

/-- Embedding of the epoch decoding inlined in `parse_multiple_tles`
(main.rs): characters [18,32) of TLE line 1, parsed as a decimal
`YYDDD.DDDDDDDD`, split by `floor(v / 1000)` and the truncated remainder
`v % 1000.0`, the 2-digit year resolved by the pivot 57, anchored by
`year_day_to_datetime`.  The `none` result models the source's fallback to
`Utc::now()` when the line is short or the field fails to parse. -/
def tle_epoch_from_line1 (tle_line1 : String) : Option ℤ :=
  if 32 ≤ tle_line1.length then
    let epoch_str := (tle_line1.toList.drop 18).take 14
    match parseDecimal (trimChars epoch_str) with
    | some epoch_val =>
      let year_2digit := ratFloor (epoch_val / 1000)
      let day_of_year := epoch_val - (ratTrunc (epoch_val / 1000) : ℚ) * 1000
      let full_year := if 57 ≤ year_2digit then 1900 + year_2digit else 2000 + year_2digit
      some (year_day_to_datetime full_year day_of_year)
    | none => none
  else none

/-- Signal strength classes of radio.rs. -/
inductive SignalStrength where
  | Excellent
  | Good
  | Fair
  | Poor
  | NoSignal
deriving DecidableEq, Repr

/-- Communication window verdict of radio.rs.  The human-readable `reason`
string built by `format!` is presentational output and is not modelled. -/
structure CommunicationWindow where
  is_viable : Bool
  signal_strength_estimate : SignalStrength
  recommended_mode : Option String
deriving DecidableEq, Repr

/-- The fields of satellite.rs `SatellitePosition` read by the link
evaluator and the display layers, with f64 fields embedded as exact
rationals.  The lazily-filled `doppler`/`comm_window` Option fields are set
after construction by the radio layer and read by nothing modelled here; the
real-valued Doppler computation is embedded separately over ℝ. -/
structure SatellitePosition where
  name : String
  time : ℤ
  latitude : ℚ
  longitude : ℚ
  altitude_km : ℚ
  velocity_km_s : ℚ
  azimuth : ℚ
  elevation : ℚ
  range_km : ℚ
  is_visible : Bool
deriving DecidableEq, Repr

/-- Embedding of `evaluate_communication_window` (radio.rs). -/
def evaluate_communication_window (position : SatellitePosition) : CommunicationWindow :=
  if !position.is_visible then
    { is_viable := false, signal_strength_estimate := SignalStrength.NoSignal,
      recommended_mode := none }
  else
    let elevation := position.elevation
    let range_km := position.range_km
    let signal_strength :=
      if 45 ≤ elevation ∧ range_km < 2000 then SignalStrength.Excellent
      else if 30 ≤ elevation ∧ range_km < 2500 then SignalStrength.Good
      else if 15 ≤ elevation ∧ range_km < 3000 then SignalStrength.Fair
      else if 5 ≤ elevation then SignalStrength.Poor
      else SignalStrength.NoSignal
    let is_viable := decide (10 ≤ elevation) && decide (signal_strength ≠ SignalStrength.NoSignal)
    let recommended_mode :=
      if 30 ≤ elevation then some "FM/SSB"
      else if 15 ≤ elevation then some "SSB"
      else if 10 ≤ elevation then some "SSB (difficult)"
      else none
    { is_viable := is_viable, signal_strength_estimate := signal_strength,
      recommended_mode := recommended_mode }

/-- Look angles at one sampled instant, as consumed by the pass sweep
(f64 degrees/kilometres embedded as exact rationals).  The sweep obtains
them from the external SGP4 propagation composed with the frame transforms;
that composite is abstracted as a per-instant oracle below. -/
structure LookAngles where
  azimuth : ℚ
  elevation : ℚ
  range : ℚ
deriving DecidableEq, Repr

/-- Embedding of `SatellitePass` (pass_prediction.rs); times in
milliseconds. -/
structure SatellitePass where
  aos_time : ℤ
  los_time : ℤ
  max_elevation : ℚ
  max_elevation_time : ℤ
  aos_azimuth : ℚ
  max_azimuth : ℚ
  los_azimuth : ℚ
  duration_seconds : ℚ
  max_range_km : ℚ
deriving DecidableEq, Repr

/-- Embedding of `PredictionConfig` (config.rs); the f64 fields keep their
source semantics (`search_days as i64` and `time_step as i64` truncate). -/
structure PredictionConfig where
  num_passes : ℕ
  min_elevation : ℚ
  search_days : ℚ
  time_step : ℚ
deriving Repr

/-- Failure cases of `predict_passes`: the staleness error carrying the
computed age in days, and a `Constants::from_elements` failure. -/
inductive PredictionError where
  | staleElements (age_days : ℤ)
  | elementsError
deriving DecidableEq, Repr

/-- Decidable equality of prediction results, so concrete runs can be
checked by evaluation. -/
instance exceptDecidableEq {e a : Type} [DecidableEq e] [DecidableEq a] :
    DecidableEq (Except e a) := fun x y =>
  match x, y with
  | Except.error e1, Except.error e2 =>
    if h : e1 = e2 then isTrue (congrArg Except.error h)
    else isFalse (fun hc => h (Except.error.inj hc))
  | Except.error _, Except.ok _ => isFalse (fun hc => Except.noConfusion hc)
  | Except.ok _, Except.error _ => isFalse (fun hc => Except.noConfusion hc)
  | Except.ok v1, Except.ok v2 =>
    if h : v1 = v2 then isTrue (congrArg Except.ok h)
    else isFalse (fun hc => h (Except.ok.inj hc))

/-- The mutable locals of the `predict_passes` sweep loop (main.rs
lines 442-519) gathered into one state record. -/
structure SweepState where
  current_time : ℤ
  in_pass : Bool
  pass_start : ℤ
  max_elevation : ℚ
  max_elevation_time : ℤ
  aos_azimuth : ℚ
  max_azimuth : ℚ
  max_range : ℚ
  passes : List SatellitePass
deriving Repr

/-- One iteration body of the `predict_passes` sweep after a successful
propagation: the horizon-crossing state machine followed by the
`current_time += time_step` advance.  `duration_seconds` is
`Duration::num_seconds` (millisecond difference truncated to seconds) cast
to f64. -/
def sweepStep (time_step_ms : ℤ) (min_elevation : ℚ) (la : LookAngles)
    (st : SweepState) : SweepState :=
  let st' :=
    if min_elevation ≤ la.elevation then
      if !st.in_pass then
        { st with
          in_pass := true,
          pass_start := st.current_time,
          aos_azimuth := la.azimuth,
          max_elevation := la.elevation,
          max_elevation_time := st.current_time,
          max_azimuth := la.azimuth,
          max_range := la.range }
      else if st.max_elevation < la.elevation then
        { st with
          max_elevation := la.elevation,
          max_elevation_time := st.current_time,
          max_azimuth := la.azimuth,
          max_range := la.range }
      else st
    else if st.in_pass then
      { st with
        passes := st.passes ++ [{
          aos_time := st.pass_start,
          los_time := st.current_time,
          max_elevation := st.max_elevation,
          max_elevation_time := st.max_elevation_time,
          aos_azimuth := st.aos_azimuth,
          max_azimuth := st.max_azimuth,
          los_azimuth := la.azimuth,
          duration_seconds := ((Int.tdiv (st.current_time - st.pass_start) 1000 : ℤ) : ℚ),
          max_range_km := st.max_range }],
        in_pass := false }
    else st
  { st' with current_time := st'.current_time + time_step_ms }

/-- The `predict_passes` while loop.  A `none` sample is a propagation
failure: the source breaks out of the loop and returns the passes collected
so far.  The fuel argument only bounds the iteration count so the
definition is total; exhausted fuel (`none` result) marks the one case
where the Rust loop would never return (a nonpositive time step with the
window still open). -/
def sweepLoop (sample : ℤ → Option LookAngles) (end_time time_step_ms : ℤ)
    (num_passes : ℕ) (min_elevation : ℚ) :
    ℕ → SweepState → Option (List SatellitePass)
  | 0, st =>
    if st.current_time < end_time ∧ st.passes.length < num_passes then none
    else some st.passes
  | fuel + 1, st =>
    if st.current_time < end_time ∧ st.passes.length < num_passes then
      match sample st.current_time with
      | none => some st.passes
      | some la =>
        sweepLoop sample end_time time_step_ms num_passes min_elevation fuel
          (sweepStep time_step_ms min_elevation la st)
    else
      some st.passes

/-- The sweep loop's initial state (main.rs lines 445-451). -/
def initialSweepState (start_time : ℤ) : SweepState :=
  { current_time := start_time, in_pass := false, pass_start := start_time,
    max_elevation := 0, max_elevation_time := start_time, aos_azimuth := 0,
    max_azimuth := 0, max_range := 0, passes := [] }

/-- The element-set age computed by `predict_passes`:
`(now.timestamp() - epoch.timestamp()).abs() / 86400` whole days (the i64
division of the nonnegative seconds value). -/
def tle_age_days (start_time tle_epoch : ℤ) : ℤ :=
  |timestampSec start_time - timestampSec tle_epoch| / 86400

/-- Embedding of `predict_passes` (main.rs).  `sample t` stands for
`constants.propagate(minutes since tle_epoch at t)` composed with
`calculate_gmst`/`calculate_look_angles` (the propagator is the external
black box of the specification); `elements_ok` is whether
`Constants::from_elements` succeeds.  The source's `> 30`-day branch only
prints a warning before the nested `> 90` check, so the error condition is
exactly `tle_age_days > 90`.  `Except.ok none` marks the diverging loop
(see `sweepLoop`); every terminating Rust execution is `Except.ok (some _)`
or `Except.error _`. -/
def predict_passes (sample : ℤ → Option LookAngles) (elements_ok : Bool)
    (tle_epoch : ℤ) (start_time : ℤ) (config : PredictionConfig) :
    Except PredictionError (Option (List SatellitePass)) :=
  let end_time := start_time + 86400000 * ratTrunc config.search_days
  if 90 < tle_age_days start_time tle_epoch then
    Except.error (PredictionError.staleElements (tle_age_days start_time tle_epoch))
  else if !elements_ok then
    Except.error PredictionError.elementsError
  else
    let time_step_ms := 1000 * ratTrunc config.time_step
    let fuel := if 0 < time_step_ms then ((end_time - start_time) / time_step_ms).toNat + 1 else 0
    Except.ok (sweepLoop sample end_time time_step_ms config.num_passes
      config.min_elevation fuel (initialSweepState start_time))

/-- A tracked satellite as the alert engine sees it: its name and its
stored pass list (replaced wholesale per prediction run). -/
structure TrackedSatellite where
  name : String
  passes : List SatellitePass
deriving Repr

/-- Embedding of `Satellite::get_next_pass` (satellite.rs): first stored
pass whose AOS is strictly in the future. -/
def get_next_pass (now : ℤ) (satellite : TrackedSatellite) : Option SatellitePass :=
  satellite.passes.find? (fun pass => now < pass.aos_time)

/-- Embedding of `AlertsConfig` (config.rs); `alert_before_pass` is the
lead time in minutes. -/
structure AlertsConfig where
  enabled : Bool
  alert_before_pass : ℤ
  min_elevation_for_alert : ℚ
deriving Repr

/-- Embedding of `Alert` (main.rs). -/
structure Alert where
  satellite_name : String
  pass : SatellitePass
  time_until_minutes : ℤ
  shown : Bool
deriving DecidableEq, Repr

/-- The per-satellite decision inside the `update_alerts` loop, factored
out for the statement of its characterisation:
`num_minutes` truncates the millisecond lead toward zero. -/
def alert_for (now : ℤ) (config : AlertsConfig) (satellite : TrackedSatellite) :
    Option Alert :=
  match get_next_pass now satellite with
  | none => none
  | some next_pass =>
    if next_pass.max_elevation < config.min_elevation_for_alert then none
    else
      let minutes_until := Int.tdiv (next_pass.aos_time - now) 60000
      if 0 < minutes_until ∧ minutes_until ≤ config.alert_before_pass then
        some { satellite_name := satellite.name, pass := next_pass,
               time_until_minutes := minutes_until, shown := false }
      else none

/-- Embedding of `update_alerts` (main.rs).  When alerts are disabled the
source returns before `alerts.clear()`, leaving the previous alert list in
place; otherwise the list is rebuilt from scratch over the tracked
satellites, the loop body (next-pass lookup, elevation `continue`,
lead-time window test, `push`) being `alert_for` above. -/
def update_alerts (config : AlertsConfig) (satellites : List TrackedSatellite)
    (now : ℤ) (previous_alerts : List Alert) : List Alert :=
  if !config.enabled then previous_alerts
  else
    satellites.foldl (fun alerts satellite =>
      match alert_for now config satellite with
      | none => alerts
      | some alert => alerts ++ [alert]) []

/-- A 3-vector of real components, the embedding of `nalgebra::Vector3<f64>`
for the frame-transform code (named Vec3; Mathlib already has a Vector3). -/
structure Vec3 where
  x : ℝ
  y : ℝ
  z : ℝ

/-- Euclidean norm of a 3-vector (`nalgebra::Vector3::norm`). -/
noncomputable def vecNorm (v : Vec3) : ℝ :=
  Real.sqrt (v.x ^ 2 + v.y ^ 2 + v.z ^ 2)

/-- Rust `f64::to_radians`. -/
noncomputable def toRadians (deg : ℝ) : ℝ :=
  deg * (Real.pi / 180)

/-- Rust `f64::to_degrees`. -/
noncomputable def toDegrees (rad : ℝ) : ℝ :=
  rad * (180 / Real.pi)

/-- Rust `f64::atan2` over the reals: the argument of the complex number
with real part `x` and imaginary part `y`, which lies in `(-pi, pi]` and is
`0` at the origin, matching the IEEE convention on real inputs. -/
noncomputable def atan2 (y x : ℝ) : ℝ :=
  Complex.arg ⟨x, y⟩

/-- Embedding of `eci_to_ecef` (pass_prediction.rs): rotate the inertial
position about the polar axis by the Greenwich sidereal angle. -/
noncomputable def eci_to_ecef (eci : Vec3) (gmst : ℝ) : Vec3 :=
  { x := eci.x * Real.cos gmst + eci.y * Real.sin gmst,
    y := -eci.x * Real.sin gmst + eci.y * Real.cos gmst,
    z := eci.z }

/-- Real-valued look angles (the `LookAngles` struct of
pass_prediction.rs as produced by the frame transforms). -/
structure LookAnglesR where
  azimuth : ℝ
  elevation : ℝ
  range : ℝ

/-- Embedding of `calculate_look_angles` (pass_prediction.rs): range vector
in the Earth-fixed frame, projected into the local south/east/zenith frame;
azimuth from `atan2(east, -south)` in degrees, normalised by adding 360 when
negative; elevation from `asin`. -/
noncomputable def calculate_look_angles (sat_pos_eci observer_ecef : Vec3)
    (gmst observer_lat observer_lon : ℝ) : LookAnglesR :=
  let sat_ecef := eci_to_ecef sat_pos_eci gmst
  let range_vec : Vec3 :=
    { x := sat_ecef.x - observer_ecef.x,
      y := sat_ecef.y - observer_ecef.y,
      z := sat_ecef.z - observer_ecef.z }
  let range_km := vecNorm range_vec / 1000
  let lat_rad := toRadians observer_lat
  let lon_rad := toRadians observer_lon
  let south := range_vec.x * Real.cos lat_rad * Real.cos lon_rad
    + range_vec.y * Real.cos lat_rad * Real.sin lon_rad
    - range_vec.z * Real.sin lat_rad
  let east := -range_vec.x * Real.sin lon_rad + range_vec.y * Real.cos lon_rad
  let zenith := range_vec.x * Real.sin lat_rad * Real.cos lon_rad
    + range_vec.y * Real.sin lat_rad * Real.sin lon_rad
    + range_vec.z * Real.cos lat_rad
  let azimuth0 := toDegrees (atan2 east (-south))
  let azimuth := if azimuth0 < 0 then azimuth0 + 360 else azimuth0
  let elevation := toDegrees (Real.arcsin (zenith / range_km / 1000))
  { azimuth := azimuth, elevation := elevation, range := range_km }

/-- The speed of light constant of radio.rs, in metres per second. -/
noncomputable def SPEED_OF_LIGHT : ℝ :=
  299792458

/-- Embedding of `DopplerShift` (radio.rs) over the reals. -/
structure DopplerShift where
  downlink_frequency_mhz : ℝ
  downlink_shift_hz : ℝ
  downlink_observed_mhz : ℝ
  uplink_frequency_mhz : ℝ
  uplink_shift_hz : ℝ
  uplink_corrected_mhz : ℝ

/-- The fields of `SatellitePosition` read by `calculate_doppler_shift`,
over the reals (the azimuth is converted but unused in the source). -/
structure SatellitePositionR where
  velocity_km_s : ℝ
  elevation : ℝ
  azimuth : ℝ

/-- Embedding of `calculate_doppler_shift` (radio.rs): the documented
radial-velocity approximation `speed * cos(elevation)` above the horizon
(zero otherwise) and the first-order Doppler formula on the MHz inputs. -/
noncomputable def calculate_doppler_shift (position : SatellitePositionR)
    (downlink_freq_mhz uplink_freq_mhz : ℝ) : DopplerShift :=
  let sat_velocity_ms := position.velocity_km_s * 1000
  let elevation_rad := toRadians position.elevation
  let radial_velocity :=
    if 0 < elevation_rad then sat_velocity_ms * Real.cos elevation_rad else 0
  let downlink_shift_hz :=
    -(radial_velocity / SPEED_OF_LIGHT) * (downlink_freq_mhz * 1000000)
  let downlink_observed_mhz := downlink_freq_mhz + downlink_shift_hz / 1000000
  let uplink_shift_hz :=
    (radial_velocity / SPEED_OF_LIGHT) * (uplink_freq_mhz * 1000000)
  let uplink_corrected_mhz := uplink_freq_mhz + uplink_shift_hz / 1000000
  { downlink_frequency_mhz := downlink_freq_mhz,
    downlink_shift_hz := downlink_shift_hz,
    downlink_observed_mhz := downlink_observed_mhz,
    uplink_frequency_mhz := uplink_freq_mhz,
    uplink_shift_hz := uplink_shift_hz,
    uplink_corrected_mhz := uplink_corrected_mhz }

/-- Sample oracle for a one-sample pass: above threshold at t = 0, below
afterwards. -/
def samplePulse : ℤ → Option LookAngles :=
  fun t => if t = 0 then some { azimuth := 180, elevation := 20, range := 500 }
           else some { azimuth := 190, elevation := -5, range := 800 }

/-- Sample oracle whose propagation fails at every instant. -/
def sampleFail : ℤ → Option LookAngles :=
  fun _ => none

/-- A one-day, half-day-step, single-pass search configuration. -/
def configPulse : PredictionConfig :=
  { num_passes := 1, min_elevation := 10, search_days := 1, time_step := 43200 }

/-- A one-day, one-minute-step, single-pass search configuration. -/
def configBasic : PredictionConfig :=
  { num_passes := 1, min_elevation := 10, search_days := 1, time_step := 60 }

/-- The pass `predict_passes` emits from `samplePulse` under `configPulse`
starting at instant 0: its peak sample is its first (and only) qualifying
sample. -/
def passPulse : SatellitePass :=
  { aos_time := 0, los_time := 43200000, max_elevation := 20,
    max_elevation_time := 0, aos_azimuth := 180, max_azimuth := 180,
    los_azimuth := 190, duration_seconds := 43200, max_range_km := 500 }

/-- A below-horizon live position (negative elevation, visibility flag
cleared). -/
def positionBelowHorizon : SatellitePosition :=
  { name := "AO-91", time := 0, latitude := 10, longitude := 20,
    altitude_km := 460, velocity_km_s := 7, azimuth := 210, elevation := -5,
    range_km := 900, is_visible := false }

/-- An alert configuration: 20-degree threshold, 10-minute lead. -/
def configAlerts : AlertsConfig :=
  { enabled := true, alert_before_pass := 10, min_elevation_for_alert := 20 }

/-- A 40-degree pass whose AOS is 8 minutes after instant 0. -/
def passIn8Min : SatellitePass :=
  { aos_time := 480000, los_time := 1080000, max_elevation := 40,
    max_elevation_time := 780000, aos_azimuth := 20, max_azimuth := 90,
    los_azimuth := 160, duration_seconds := 600, max_range_km := 700 }

/-- The same pass shape with AOS 15 minutes after instant 0. -/
def passIn15Min : SatellitePass :=
  { aos_time := 900000, los_time := 1500000, max_elevation := 40,
    max_elevation_time := 1200000, aos_azimuth := 20, max_azimuth := 90,
    los_azimuth := 160, duration_seconds := 600, max_range_km := 700 }

/-- A tracked satellite whose next pass is 8 minutes away. -/
def satellite8 : TrackedSatellite :=
  { name := "ISS", passes := [passIn8Min] }

/-- A tracked satellite whose next pass is 15 minutes away. -/
def satellite15 : TrackedSatellite :=
  { name := "ISS", passes := [passIn15Min] }

/-- The alert the engine emits for `satellite8` at instant 0. -/
def alert8 : Alert :=
  { satellite_name := "ISS", pass := passIn8Min, time_until_minutes := 8,
    shown := false }

/-- A TLE line 1 with epoch field `24001.50000000` (noon, January 1,
2024). -/
def tleLine24 : String :=
  "1 25544U 98067A   24001.50000000  .00016717  00000+0  10270-3 0  9994"

/-- A TLE line 1 with epoch field `57001.50000000` (noon, January 1,
1957). -/
def tleLine57 : String :=
  "1 25544U 98067A   57001.50000000  .00016717  00000+0  10270-3 0  9994"

/-- A TLE line 1 with epoch field `56364.00000000` (day 364 of 2056). -/
def tleLine56 : String :=
  "1 25544U 98067A   56364.00000000  .00016717  00000+0  10270-3 0  9994"

/-- The parse-time epoch of an element set with day-of-year 1.0 of 2024:
2024-01-01T00:00:00Z. -/
def epochJan2024 : ℤ :=
  year_day_to_datetime 2024 1

/-- 2024-12-31T12:00:00Z, an instant in the same calendar year as
`epochJan2024` but closer to the next year boundary. -/
def lateDec2024 : ℤ :=
  yearStartMs 2025 - 43200000

/-- The pass invariants claimed for every emitted pass, with the peak-time
lower bound in its corrected non-strict form. -/
def passInv (min_elevation : ℚ) (p : SatellitePass) : Prop :=
  p.aos_time ≤ p.max_elevation_time ∧ p.max_elevation_time < p.los_time ∧
  min_elevation ≤ p.max_elevation ∧
  p.duration_seconds = ((p.los_time - p.aos_time : ℤ) : ℚ) / 1000

/-- The sweep-loop invariant: every emitted pass satisfies `passInv`, and
while a pass is open its running peak lies between its start and the
previous sample, above the threshold, with the elapsed time a whole number
of (whole-second) steps. -/
def sweepInv (time_step_ms : ℤ) (min_elevation : ℚ) (st : SweepState) : Prop :=
  (∀ p ∈ st.passes, passInv min_elevation p) ∧
  (st.in_pass = true →
    st.pass_start ≤ st.max_elevation_time ∧
    st.max_elevation_time + time_step_ms ≤ st.current_time ∧
    min_elevation ≤ st.max_elevation ∧
    (1000 ∣ (st.current_time - st.pass_start)))

/-- The radial-velocity approximation as the specification states it:
`speed * cos(elevation)` (metres per second) when the elevation is
positive, and zero otherwise, with the elevation condition expressed in
degrees. -/
noncomputable def specRadialVelocity (position : SatellitePositionR) : ℝ :=
  if 0 < position.elevation then
    position.velocity_km_s * 1000 * Real.cos (toRadians position.elevation)
  else 0

lemma int_tdiv_eq_ediv (a b : ℤ) (h : 0 ≤ a) (h2 : 0 ≤ b) : a.tdiv b = a / b := by
  match a, b, h, h2 with
  | Int.ofNat m, Int.ofNat n, _, _ => rfl

lemma ratTrunc_intCast (n : ℤ) : ratTrunc ((n : ℤ) : ℚ) = n := by
  rw [ratTrunc, Rat.num_intCast, Rat.den_intCast]
  exact Int.tdiv_one n

lemma ratTrunc_nonneg_eq_floor (q : ℚ) (h : 0 ≤ q) : ratTrunc q = ⌊q⌋ := by
  rw [ratTrunc, int_tdiv_eq_ediv _ _ (Rat.num_nonneg.2 h) (by positivity), Rat.floor_def]

lemma year_day_to_datetime_int (Y d : ℤ) :
    year_day_to_datetime Y (d : ℚ) = yearStartMs Y + (d - 1) * 86400000 := by
  unfold year_day_to_datetime
  have h : ((d : ℚ) - 1) * 86400000 = (((d - 1) * 86400000 : ℤ) : ℚ) := by
    push_cast
    ring
  rw [h, ratTrunc_intCast]

lemma yearStartDays_succ_bounds (y : ℤ) :
    365 ≤ yearStartDays (y + 1) - yearStartDays y ∧
    yearStartDays (y + 1) - yearStartDays y ≤ 366 := by
  unfold yearStartDays
  constructor <;> omega

/-- C5: `evaluate_communication_window` short-circuits a below-horizon
position to not-viable/NoSignal/no-mode regardless of range; otherwise the
signal class follows the elevation/range table, viability holds exactly for
elevation at least 10 degrees with a usable class, and the recommended mode
follows the elevation thresholds. -/
theorem evaluate_communication_window_spec (position : SatellitePosition) :
    (position.is_visible = false →
      evaluate_communication_window position =
        { is_viable := false, signal_strength_estimate := SignalStrength.NoSignal,
          recommended_mode := none }) ∧
    (position.is_visible = true →
      (evaluate_communication_window position).signal_strength_estimate =
        (if 45 ≤ position.elevation ∧ position.range_km < 2000 then SignalStrength.Excellent
         else if 30 ≤ position.elevation ∧ position.range_km < 2500 then SignalStrength.Good
         else if 15 ≤ position.elevation ∧ position.range_km < 3000 then SignalStrength.Fair
         else if 5 ≤ position.elevation then SignalStrength.Poor
         else SignalStrength.NoSignal) ∧
      ((evaluate_communication_window position).is_viable = true ↔
        10 ≤ position.elevation ∧
          (evaluate_communication_window position).signal_strength_estimate ≠
            SignalStrength.NoSignal) ∧
      (evaluate_communication_window position).recommended_mode =
        (if 30 ≤ position.elevation then some "FM/SSB"
         else if 15 ≤ position.elevation then some "SSB"
         else if 10 ≤ position.elevation then some "SSB (difficult)"
         else none)) := by
  constructor
  · intro h
    simp [evaluate_communication_window, h]
  · intro h
    simp only [evaluate_communication_window, h, Bool.not_true, Bool.false_eq_true,
      if_false, Bool.and_eq_true, decide_eq_true_eq]
    exact ⟨trivial, trivial, trivial⟩

/-- C5 witness: the below-horizon fixture takes the short-circuit branch. -/
theorem evaluate_communication_window_spec_witness :
    positionBelowHorizon.is_visible = false ∧
    evaluate_communication_window positionBelowHorizon =
      { is_viable := false, signal_strength_estimate := SignalStrength.NoSignal,
        recommended_mode := none } :=
  ⟨rfl, (evaluate_communication_window_spec positionBelowHorizon).1 rfl⟩

lemma toDegrees_atan2_mem (y x : ℝ) :
    -180 < toDegrees (atan2 y x) ∧ toDegrees (atan2 y x) ≤ 180 := by
  have h1 := Complex.neg_pi_lt_arg ⟨x, y⟩
  have h2 := Complex.arg_le_pi ⟨x, y⟩
  have hpi := Real.pi_pos
  unfold toDegrees atan2
  have k : (0:ℝ) < 180 / Real.pi := by positivity
  have e1 : -Real.pi * (180 / Real.pi) = -180 := by
    field_simp
    ring
  have e2 : Real.pi * (180 / Real.pi) = 180 := by
    field_simp
  constructor
  · have h3 := mul_lt_mul_of_pos_right h1 k
    rw [e1] at h3
    linarith
  · have h3 := mul_le_mul_of_nonneg_right h2 (le_of_lt k)
    rw [e2] at h3
    linarith

lemma azimuth_normalize_bounds (a : ℝ) (h1 : -180 < a) (h2 : a ≤ 180) :
    0 ≤ (if a < 0 then a + 360 else a) ∧ (if a < 0 then a + 360 else a) < 360 := by
  split <;> constructor <;> linarith

/-- C7: every azimuth produced by `calculate_look_angles` lies in
[0, 360): the degrees image of atan2 lies in (-180, 180] and the negative
branch is shifted by 360.  (The azimuth stored in a `SatellitePosition` and
in an emitted pass is a value of this function.) -/
theorem calculate_look_angles_azimuth_range (sat_pos_eci observer_ecef : Vec3)
    (gmst observer_lat observer_lon : ℝ) :
    0 ≤ (calculate_look_angles sat_pos_eci observer_ecef gmst observer_lat observer_lon).azimuth ∧
    (calculate_look_angles sat_pos_eci observer_ecef gmst observer_lat observer_lon).azimuth < 360 := by
  unfold calculate_look_angles
  dsimp only
  exact azimuth_normalize_bounds _ (toDegrees_atan2_mem _ _).1 (toDegrees_atan2_mem _ _).2

/-- C8: `calculate_doppler_shift` uses the radial velocity
`speed * cos(elevation)` above the horizon and zero otherwise, the downlink
shift `-(v/c) * f_down` with observed downlink `f_down + shift`, and the
uplink shift `+(v/c) * f_up` with corrected uplink `f_up + shift`, with
`c = 299792458 m/s`; equivalently the observed downlink is
`f_down * (1 - v/c)` and the corrected uplink `f_up * (1 + v/c)`. -/
theorem calculate_doppler_shift_spec (position : SatellitePositionR)
    (downlink_freq_mhz uplink_freq_mhz : ℝ) :
    (calculate_doppler_shift position downlink_freq_mhz uplink_freq_mhz).downlink_shift_hz =
      -(specRadialVelocity position / SPEED_OF_LIGHT) * (downlink_freq_mhz * 1000000) ∧
    (calculate_doppler_shift position downlink_freq_mhz uplink_freq_mhz).downlink_observed_mhz =
      downlink_freq_mhz +
        (calculate_doppler_shift position downlink_freq_mhz uplink_freq_mhz).downlink_shift_hz / 1000000 ∧
    (calculate_doppler_shift position downlink_freq_mhz uplink_freq_mhz).downlink_observed_mhz =
      downlink_freq_mhz * (1 - specRadialVelocity position / SPEED_OF_LIGHT) ∧
    (calculate_doppler_shift position downlink_freq_mhz uplink_freq_mhz).uplink_shift_hz =
      (specRadialVelocity position / SPEED_OF_LIGHT) * (uplink_freq_mhz * 1000000) ∧
    (calculate_doppler_shift position downlink_freq_mhz uplink_freq_mhz).uplink_corrected_mhz =
      uplink_freq_mhz +
        (calculate_doppler_shift position downlink_freq_mhz uplink_freq_mhz).uplink_shift_hz / 1000000 ∧
    (calculate_doppler_shift position downlink_freq_mhz uplink_freq_mhz).uplink_corrected_mhz =
      uplink_freq_mhz * (1 + specRadialVelocity position / SPEED_OF_LIGHT) := by
  have hcond : (0 < toRadians position.elevation) ↔ (0 < position.elevation) := by
    unfold toRadians
    have hpi := Real.pi_pos
    constructor
    · intro h
      nlinarith
    · intro h
      positivity
  have hrv : (if 0 < toRadians position.elevation then
      position.velocity_km_s * 1000 * Real.cos (toRadians position.elevation) else 0) =
      specRadialVelocity position := by
    unfold specRadialVelocity
    simp only [hcond]
  have hc : SPEED_OF_LIGHT ≠ 0 := by
    unfold SPEED_OF_LIGHT
    norm_num
  unfold calculate_doppler_shift
  dsimp only
  rw [hrv]
  refine ⟨rfl, rfl, ?_, rfl, rfl, ?_⟩
  · field_simp
    ring
  · field_simp
    ring

lemma foldl_option_append (f : TrackedSatellite → Option Alert) :
    ∀ (l : List TrackedSatellite) (init : List Alert),
      l.foldl (fun alerts satellite =>
        match f satellite with
        | none => alerts
        | some alert => alerts ++ [alert]) init = init ++ l.filterMap f := by
  intro l
  induction l with
  | nil =>
    intro init
    simp
  | cons satellite t ih =>
    intro init
    rw [List.foldl_cons, List.filterMap_cons]
    cases hf : f satellite with
    | none =>
      simp only [hf]
      rw [ih]
    | some alert =>
      simp only [hf]
      rw [ih]
      simp

lemma find_future_min (now : ℤ) :
    ∀ (l : List SatellitePass),
      l.Pairwise (fun p1 p2 => p1.aos_time ≤ p2.aos_time) →
      ∀ p, l.find? (fun pass => now < pass.aos_time) = some p →
      ∀ q ∈ l, now < q.aos_time → p.aos_time ≤ q.aos_time := by
  intro l
  induction l with
  | nil =>
    intro _ p hp
    simp at hp
  | cons hd t ih =>
    intro hsorted p hp q hq hqfut
    rw [List.pairwise_cons] at hsorted
    by_cases hcond : now < hd.aos_time
    · rw [List.find?_cons_of_pos _ (by simpa using hcond)] at hp
      cases hp
      rcases List.mem_cons.1 hq with rfl | hq2
      · exact le_refl _
      · exact hsorted.1 q hq2
    · rw [List.find?_cons_of_neg _ (by simpa using hcond)] at hp
      rcases List.mem_cons.1 hq with rfl | hq2
      · exact absurd hqfut hcond
      · exact ih hsorted.2 p hp q hq2 hqfut

/-- C6: with alerts enabled, each cycle rebuilds the alert list with at
most one alert per tracked satellite, produced by `alert_for`, which fires
exactly when the satellite's first strictly-future pass clears the
configured elevation threshold and its truncated minutes-until-AOS lie in
(0, lead]; on a chronologically sorted pass list that first future pass is
the nearest one.  In particular a 40-degree pass 8 minutes out under a
20-degree/10-minute configuration yields exactly one alert with
time_until_minutes = 8, and the same pass 15 minutes out yields none. -/
theorem update_alerts_spec (config : AlertsConfig) (satellites : List TrackedSatellite)
    (now : ℤ) (previous_alerts : List Alert) :
    (config.enabled = true →
      update_alerts config satellites now previous_alerts =
        satellites.filterMap (alert_for now config)) ∧
    (∀ satellite a, alert_for now config satellite = some a ↔
      ∃ p, get_next_pass now satellite = some p ∧
        config.min_elevation_for_alert ≤ p.max_elevation ∧
        0 < Int.tdiv (p.aos_time - now) 60000 ∧
        Int.tdiv (p.aos_time - now) 60000 ≤ config.alert_before_pass ∧
        a = { satellite_name := satellite.name, pass := p,
              time_until_minutes := Int.tdiv (p.aos_time - now) 60000,
              shown := false }) ∧
    (∀ satellite p, satellite.passes.Pairwise (fun p1 p2 => p1.aos_time ≤ p2.aos_time) →
      get_next_pass now satellite = some p →
      ∀ q ∈ satellite.passes, now < q.aos_time → p.aos_time ≤ q.aos_time) ∧
    update_alerts configAlerts [satellite8] 0 [] = [alert8] ∧
    update_alerts configAlerts [satellite15] 0 [] = [] := by
  refine ⟨?_, ?_, ?_, by decide, by decide⟩
  · intro h
    unfold update_alerts
    rw [h]
    rw [foldl_option_append]
    simp
  · intro satellite a
    unfold alert_for
    cases hg : get_next_pass now satellite with
    | none =>
      simp
    | some next_pass =>
      simp only [Option.some.injEq]
      constructor
      · intro h
        by_cases h1 : next_pass.max_elevation < config.min_elevation_for_alert
        · rw [if_pos h1] at h
          exact absurd h (by simp)
        · rw [if_neg h1] at h
          by_cases h2 : 0 < Int.tdiv (next_pass.aos_time - now) 60000 ∧
              Int.tdiv (next_pass.aos_time - now) 60000 ≤ config.alert_before_pass
          · rw [if_pos h2] at h
            simp only [Option.some.injEq] at h
            exact ⟨next_pass, rfl, le_of_not_lt h1, h2.1, h2.2, h.symm⟩
          · rw [if_neg h2] at h
            exact absurd h (by simp)
      · rintro ⟨p, hp, hel, hlo, hhi, rfl⟩
        cases hp
        rw [if_neg (not_lt.2 hel), if_pos ⟨hlo, hhi⟩]
  · intro satellite p hsorted hfind q hq hqfut
    exact find_future_min now satellite.passes hsorted p hfind q hq hqfut

/-- C6 witness: the enabled-path equation instantiated on the 8-minute
fixture. -/
theorem update_alerts_spec_witness :
    configAlerts.enabled = true ∧
    update_alerts configAlerts [satellite8] 0 [] =
      [satellite8].filterMap (alert_for 0 configAlerts) :=
  ⟨rfl, (update_alerts_spec configAlerts [satellite8] 0 []).1 rfl⟩

/-- C4: `predict_passes` with an element-set age above 90 whole days fails
with the staleness error carrying that age (and touches nothing but its own
arguments, so other objects are unaffected); with age in (30, 90] days it
only warns and proceeds to the normal sweep. -/
theorem predict_passes_staleness (sample : ℤ → Option LookAngles) (elements_ok : Bool)
    (tle_epoch start_time : ℤ) (config : PredictionConfig) :
    (90 < tle_age_days start_time tle_epoch →
      predict_passes sample elements_ok tle_epoch start_time config =
        Except.error (PredictionError.staleElements (tle_age_days start_time tle_epoch))) ∧
    (30 < tle_age_days start_time tle_epoch → tle_age_days start_time tle_epoch ≤ 90 →
      elements_ok = true →
      ∃ result, predict_passes sample elements_ok tle_epoch start_time config =
        Except.ok result) := by
  constructor
  · intro h
    unfold predict_passes
    rw [if_pos h]
  · intro _ h90 hok
    unfold predict_passes
    rw [if_neg (not_lt.2 h90), hok]
    simp only [Bool.not_true, Bool.false_eq_true, if_false]
    exact ⟨_, rfl⟩

/-- C4 witness: an epoch 95 days before now errors with age 95; an epoch
40 days before now proceeds. -/
theorem predict_passes_staleness_witness :
    90 < tle_age_days 8208000000 0 ∧
    tle_age_days 8208000000 0 = 95 ∧
    predict_passes sampleFail true 0 8208000000 configBasic =
      Except.error (PredictionError.staleElements (tle_age_days 8208000000 0)) ∧
    (30 < tle_age_days 3456000000 0 ∧ tle_age_days 3456000000 0 ≤ 90 ∧
      ∃ result, predict_passes sampleFail true 0 3456000000 configBasic =
        Except.ok result) :=
  ⟨by decide, by decide,
    (predict_passes_staleness sampleFail true 0 8208000000 configBasic).1 (by decide),
    by decide, by decide,
    (predict_passes_staleness sampleFail true 0 3456000000 configBasic).2
      (by decide) (by decide) rfl⟩

/-- C9: the staleness guard compares the absolute age, so an epoch more
than 90 whole days in the future also fails with the staleness error, one
31 to 90 days in the future warns and proceeds, and the staleness outcome
depends on the epoch only through the computed absolute age in days. -/
theorem predict_passes_future_epoch (sample : ℤ → Option LookAngles) (elements_ok : Bool)
    (tle_epoch start_time : ℤ) (config : PredictionConfig) :
    (start_time < tle_epoch → 90 < tle_age_days start_time tle_epoch →
      predict_passes sample elements_ok tle_epoch start_time config =
        Except.error (PredictionError.staleElements (tle_age_days start_time tle_epoch))) ∧
    (start_time < tle_epoch → 30 < tle_age_days start_time tle_epoch →
      tle_age_days start_time tle_epoch ≤ 90 → elements_ok = true →
      ∃ result, predict_passes sample elements_ok tle_epoch start_time config =
        Except.ok result) ∧
    (∀ (epoch2 : ℤ) (sample2 : ℤ → Option LookAngles) (k : ℤ),
      tle_age_days start_time tle_epoch = tle_age_days start_time epoch2 →
      (predict_passes sample elements_ok tle_epoch start_time config =
          Except.error (PredictionError.staleElements k) ↔
        predict_passes sample2 elements_ok epoch2 start_time config =
          Except.error (PredictionError.staleElements k))) := by
  refine ⟨?_, ?_, ?_⟩
  · intro _ h
    unfold predict_passes
    rw [if_pos h]
  · intro _ _ h90 hok
    unfold predict_passes
    rw [if_neg (not_lt.2 h90), hok]
    simp only [Bool.not_true, Bool.false_eq_true, if_false]
    exact ⟨_, rfl⟩
  · intro epoch2 sample2 k hage
    unfold predict_passes
    rw [← hage]
    by_cases h : 90 < tle_age_days start_time tle_epoch
    · rw [if_pos h, if_pos h]
    · rw [if_neg h, if_neg h]
      cases elements_ok <;> simp

/-- C9 witness: an epoch 95 days in the future errors with age 95; one 40
days in the future proceeds; the staleness outcome at 95 days agrees
between the future epoch and the past epoch of the same absolute age. -/
theorem predict_passes_future_epoch_witness :
    (0 : ℤ) < 8208000000 ∧ 90 < tle_age_days 0 8208000000 ∧
    tle_age_days 0 8208000000 = 95 ∧
    predict_passes sampleFail true 8208000000 0 configBasic =
      Except.error (PredictionError.staleElements (tle_age_days 0 8208000000)) ∧
    ((0 : ℤ) < 3456000000 ∧ 30 < tle_age_days 0 3456000000 ∧
      tle_age_days 0 3456000000 ≤ 90 ∧
      ∃ result, predict_passes sampleFail true 3456000000 0 configBasic =
        Except.ok result) ∧
    (predict_passes sampleFail true 8208000000 0 configBasic =
        Except.error (PredictionError.staleElements 95) ↔ 
      predict_passes sampleFail true (-8208000000) 0 configBasic =
        Except.error (PredictionError.staleElements 95)) :=
  ⟨by decide, by decide, by decide,
    (predict_passes_future_epoch sampleFail true 8208000000 0 configBasic).1
      (by decide) (by decide),
    ⟨by decide, by decide, by decide,
      (predict_passes_future_epoch sampleFail true 3456000000 0 configBasic).2.1
        (by decide) (by decide) (by decide) rfl⟩,
    (predict_passes_future_epoch sampleFail true 8208000000 0 configBasic).2.2
      (-8208000000) sampleFail 95 (by decide)⟩

/-- C10: with fresh-enough elements and a valid element set,
`predict_passes` returns Ok no matter where (or whether) propagation fails;
and at the loop level, a failing sample with the window still open makes
the sweep stop at once and return exactly the passes already completed,
discarding the open in-progress pass state. -/
theorem predict_passes_propagation_failure (sample : ℤ → Option LookAngles)
    (elements_ok : Bool) (tle_epoch start_time : ℤ) (config : PredictionConfig) :
    (tle_age_days start_time tle_epoch ≤ 90 → elements_ok = true →
      ∃ result, predict_passes sample elements_ok tle_epoch start_time config =
        Except.ok result) ∧
    (∀ (end_time time_step_ms : ℤ) (num_passes : ℕ) (min_elevation : ℚ)
        (fuel : ℕ) (st : SweepState),
      st.current_time < end_time → st.passes.length < num_passes →
      sample st.current_time = none →
      sweepLoop sample end_time time_step_ms num_passes min_elevation (fuel + 1) st =
        some st.passes) := by
  constructor
  · intro h90 hok
    unfold predict_passes
    rw [if_neg (not_lt.2 h90), hok]
    simp only [Bool.not_true, Bool.false_eq_true, if_false]
    exact ⟨_, rfl⟩
  · intro end_time time_step_ms num_passes min_elevation fuel st hlt hlen hfail
    unfold sweepLoop
    rw [if_pos ⟨hlt, hlen⟩, hfail]

/-- C10 witness: a sweep whose very first sample fails returns Ok with the
empty pass list, and the loop-level fact instantiated mid-pass shows the
open pass is discarded. -/
theorem predict_passes_propagation_failure_witness :
    tle_age_days 0 0 ≤ 90 ∧
    (∃ result, predict_passes sampleFail true 0 0 configBasic = Except.ok result) ∧
    ((0 : ℤ) < 86400000 ∧ ([passPulse].length < 2) ∧ sampleFail 0 = none ∧
      sweepLoop sampleFail 86400000 60000 2 10 6
        { current_time := 0, in_pass := true, pass_start := -120000,
          max_elevation := 30, max_elevation_time := -60000, aos_azimuth := 10,
          max_azimuth := 15, max_range := 600, passes := [passPulse] } =
        some [passPulse]) :=
  ⟨by decide,
    (predict_passes_propagation_failure sampleFail true 0 0 configBasic).1
      (by decide) rfl,
    by decide, by decide, rfl,
    (predict_passes_propagation_failure sampleFail true 0 0 configBasic).2
      86400000 60000 2 10 5
      { current_time := 0, in_pass := true, pass_start := -120000,
        max_elevation := 30, max_elevation_time := -60000, aos_azimuth := 10,
        max_azimuth := 15, max_range := 600, passes := [passPulse] }
      (by decide) (by decide) rfl⟩

lemma int_tdiv_cast_div_1000 (a : ℤ) (h : (1000:ℤ) ∣ a) :
    ((Int.tdiv a 1000 : ℤ) : ℚ) = (a : ℚ) / 1000 := by
  obtain ⟨k, rfl⟩ := h
  rw [Int.mul_tdiv_cancel_left k (by norm_num)]
  push_cast
  ring

lemma sweepStep_inv (time_step_ms : ℤ) (min_elevation : ℚ)
    (hstep : 0 < time_step_ms) (hdvd : (1000:ℤ) ∣ time_step_ms)
    (la : LookAngles) (st : SweepState)
    (hinv : sweepInv time_step_ms min_elevation st) :
    sweepInv time_step_ms min_elevation (sweepStep time_step_ms min_elevation la st) := by
  rcases hinv with ⟨hpasses, hopen⟩
  unfold sweepStep
  by_cases h1 : min_elevation ≤ la.elevation
  · rw [if_pos h1]
    cases hip : st.in_pass with
    | false =>
      simp only [hip, Bool.not_false, if_true]
      refine ⟨fun p hp => hpasses p hp, fun _ => ?_⟩
      dsimp only
      refine ⟨le_refl _, le_refl _, h1, ?_⟩
      simpa using hdvd
    | true =>
      simp only [hip, Bool.not_true, Bool.false_eq_true, if_false]
      rcases hopen hip with ⟨ha, hb, hc, hd⟩
      by_cases h2 : st.max_elevation < la.elevation
      · rw [if_pos h2]
        refine ⟨fun p hp => hpasses p hp, fun _ => ?_⟩
        dsimp only
        refine ⟨by omega, le_refl _, h1, ?_⟩
        have he : st.current_time + time_step_ms - st.pass_start =
            (st.current_time - st.pass_start) + time_step_ms := by ring
        rw [he]
        exact dvd_add hd hdvd
      · rw [if_neg h2]
        refine ⟨fun p hp => hpasses p hp, fun _ => ?_⟩
        dsimp only
        refine ⟨ha, by omega, hc, ?_⟩
        have he : st.current_time + time_step_ms - st.pass_start =
            (st.current_time - st.pass_start) + time_step_ms := by ring
        rw [he]
        exact dvd_add hd hdvd
  · rw [if_neg h1]
    cases hip : st.in_pass with
    | true =>
      simp only [hip, if_true]
      refine ⟨?_, fun hfalse => ?_⟩
      · intro p hp
        dsimp only at hp
        rcases List.mem_append.1 hp with hp2 | hp2
        · exact hpasses p hp2
        · rcases List.mem_singleton.1 hp2 with rfl
          rcases hopen hip with ⟨ha, hb, hc, hd⟩
          dsimp only [passInv]
          refine ⟨ha, by omega, hc, ?_⟩
          exact int_tdiv_cast_div_1000 _ hd
      · dsimp only at hfalse
        exact absurd hfalse (by simp)
    | false =>
      simp only [hip, Bool.false_eq_true, if_false]
      refine ⟨fun p hp => hpasses p hp, fun hfalse => ?_⟩
      dsimp only at hfalse
      exact absurd hfalse (by simp)

lemma sweepLoop_inv (sample : ℤ → Option LookAngles) (end_time time_step_ms : ℤ)
    (num_passes : ℕ) (min_elevation : ℚ) (hstep : 0 < time_step_ms)
    (hdvd : (1000:ℤ) ∣ time_step_ms) :
    ∀ (fuel : ℕ) (st : SweepState), sweepInv time_step_ms min_elevation st →
      ∀ out, sweepLoop sample end_time time_step_ms num_passes min_elevation fuel st =
        some out →
      ∀ p ∈ out, passInv min_elevation p := by
  intro fuel
  induction fuel with
  | zero =>
    intro st hinv out hout
    unfold sweepLoop at hout
    by_cases h : st.current_time < end_time ∧ st.passes.length < num_passes
    · rw [if_pos h] at hout
      exact absurd hout (by simp)
    · rw [if_neg h] at hout
      cases Option.some.inj hout
      exact hinv.1
  | succ fuel ih =>
    intro st hinv out hout
    unfold sweepLoop at hout
    by_cases h : st.current_time < end_time ∧ st.passes.length < num_passes
    · rw [if_pos h] at hout
      cases hs : sample st.current_time with
      | none =>
        rw [hs] at hout
        cases Option.some.inj hout
        exact hinv.1
      | some la =>
        rw [hs] at hout
        exact ih _ (sweepStep_inv _ _ hstep hdvd la st hinv) out hout
    · rw [if_neg h] at hout
      cases Option.some.inj hout
      exact hinv.1

lemma initialSweepState_inv (time_step_ms : ℤ) (min_elevation : ℚ) (start_time : ℤ) :
    sweepInv time_step_ms min_elevation (initialSweepState start_time) := by
  constructor
  · intro p hp
    simp [initialSweepState] at hp
  · intro h
    simp [initialSweepState] at h

/-- C2: every pass emitted by `predict_passes` has its peak time between
AOS (inclusive: a pass whose first qualifying sample is its peak keeps
`max_elevation_time = aos_time`) and LOS (strict), a peak elevation at
least the configured minimum, and a duration equal to LOS minus AOS in
seconds. -/
theorem predict_passes_pass_invariants (sample : ℤ → Option LookAngles)
    (elements_ok : Bool) (tle_epoch start_time : ℤ) (config : PredictionConfig)
    (out : List SatellitePass) (p : SatellitePass)
    (hok : predict_passes sample elements_ok tle_epoch start_time config =
      Except.ok (some out))
    (hp : p ∈ out) :
    p.aos_time ≤ p.max_elevation_time ∧ p.max_elevation_time < p.los_time ∧
    config.min_elevation ≤ p.max_elevation ∧
    p.duration_seconds = ((p.los_time - p.aos_time : ℤ) : ℚ) / 1000 := by
  unfold predict_passes at hok
  by_cases h1 : 90 < tle_age_days start_time tle_epoch
  · rw [if_pos h1] at hok
    exact absurd hok (by simp)
  rw [if_neg h1] at hok
  cases elements_ok with
  | false =>
    exact absurd hok (by simp)
  | true =>
    simp only [Bool.not_true, Bool.false_eq_true, if_false] at hok
    by_cases hstep : 0 < 1000 * ratTrunc config.time_step
    · rw [if_pos hstep] at hok
      have hout := Except.ok.inj hok
      have hdvd : (1000:ℤ) ∣ 1000 * ratTrunc config.time_step := Dvd.intro _ rfl
      exact sweepLoop_inv sample _ _ _ _ hstep hdvd _ _
        (initialSweepState_inv _ _ start_time) out hout p hp
    · rw [if_neg hstep] at hok
      have hout := Except.ok.inj hok
      unfold sweepLoop at hout
      by_cases hc : (initialSweepState start_time).current_time <
          start_time + 86400000 * ratTrunc config.search_days ∧
          (initialSweepState start_time).passes.length < config.num_passes
      · rw [if_pos hc] at hout
        exact absurd hout (by simp)
      · rw [if_neg hc] at hout
        cases Option.some.inj hout
        exact absurd hp (by simp [initialSweepState])

/-- C2 counterexample to the strict form: a pass whose only qualifying
sample is its first has `max_elevation_time = aos_time`, so
`aos_time < max_elevation_time` fails on this emitted pass. -/
theorem predict_passes_strict_peak_counterexample :
    predict_passes samplePulse true 0 0 configPulse = Except.ok (some [passPulse]) ∧
    ¬ (passPulse.aos_time < passPulse.max_elevation_time) := by
  constructor
  · decide
  · decide

/-- C2 witness: the invariants instantiated on the concrete emitted pass. -/
theorem predict_passes_pass_invariants_witness :
    predict_passes samplePulse true 0 0 configPulse = Except.ok (some [passPulse]) ∧
    (passPulse.aos_time ≤ passPulse.max_elevation_time ∧
      passPulse.max_elevation_time < passPulse.los_time ∧
      configPulse.min_elevation ≤ passPulse.max_elevation ∧
      passPulse.duration_seconds =
        ((passPulse.los_time - passPulse.aos_time : ℤ) : ℚ) / 1000) :=
  ⟨by decide,
    predict_passes_pass_invariants samplePulse true 0 0 configPulse [passPulse]
      passPulse (by decide) (by simp)⟩

lemma year_day_to_datetime_one (Y : ℤ) : year_day_to_datetime Y 1 = yearStartMs Y := by
  have h := year_day_to_datetime_int Y 1
  norm_num at h
  exact h

lemma year_day_to_datetime_sub (Y1 Y2 : ℤ) (d : ℚ) :
    year_day_to_datetime Y1 d - year_day_to_datetime Y2 d =
      (yearStartDays Y1 - yearStartDays Y2) * 86400000 := by
  unfold year_day_to_datetime yearStartMs
  ring

lemma yearStartDays_pred_bounds (y : ℤ) :
    365 ≤ yearStartDays y - yearStartDays (y - 1) ∧
    yearStartDays y - yearStartDays (y - 1) ≤ 366 := by
  unfold yearStartDays
  constructor <;> omega

/-- C1 amended: the nearest-year policy agrees with the absolute policy
when the instant lies in the calendar year the stored epoch is anchored in
AND within 182 days (15724800000 ms) of the stored epoch instant; the
re-anchoring can only move to a neighbouring year, a whole 365-or-366-day
shift away, so under this proximity the current-year candidate is weakly
nearest and ties keep it. -/
theorem minutes_since_epoch_policies_agree (Y : ℤ) (d : ℚ) (t : ℤ)
    (hyear : yearOfMs t = Y)
    (hnear : |t - year_day_to_datetime Y d| ≤ 15724800000) :
    calculate_minutes_since_epoch t d =
      calculate_minutes_since_epoch_simple (year_day_to_datetime Y d) t := by
  unfold calculate_minutes_since_epoch calculate_minutes_since_epoch_simple
  rw [hyear]
  dsimp only
  unfold timestampSec
  have hg1 := yearStartDays_pred_bounds Y
  have hg2 := yearStartDays_pred_bounds (Y + 1)
  rw [show Y + 1 - 1 = Y by ring] at hg2
  have hsub1 : year_day_to_datetime Y d - year_day_to_datetime (Y - 1) d =
      (yearStartDays Y - yearStartDays (Y - 1)) * 86400000 :=
    year_day_to_datetime_sub Y (Y - 1) d
  have hsub2 : year_day_to_datetime (Y + 1) d - year_day_to_datetime Y d =
      (yearStartDays (Y + 1) - yearStartDays Y) * 86400000 :=
    year_day_to_datetime_sub (Y + 1) Y d
  set E := year_day_to_datetime Y d with hE
  set EP := year_day_to_datetime (Y - 1) d with hEP
  set EN := year_day_to_datetime (Y + 1) d with hEN
  set g1 := yearStartDays Y - yearStartDays (Y - 1) with hg1def
  set g2 := yearStartDays (Y + 1) - yearStartDays Y with hg2def
  clear_value E EP EN g1 g2
  rw [abs_le] at hnear
  have hcur : |t / 1000 - E / 1000| ≤ 15724800 := by
    rw [abs_le]
    constructor <;> omega
  have hprev : 15811200 ≤ |t / 1000 - EP / 1000| := by
    have hp : 15811200 ≤ t / 1000 - EP / 1000 := by
      omega
    exact le_trans hp (le_abs_self _)
  have hnext : 15811200 ≤ |t / 1000 - EN / 1000| := by
    have hp : t / 1000 - EN / 1000 ≤ -15811200 := by
      omega
    have hp2 : (15811200:ℤ) ≤ -(t / 1000 - EN / 1000) := by
      omega
    exact le_trans hp2 (neg_le_abs _)
  have hc1 : ¬(|t / 1000 - EP / 1000| < |t / 1000 - E / 1000| ∧
      |t / 1000 - EP / 1000| < |t / 1000 - EN / 1000|) := by
    rintro ⟨h1, -⟩
    omega
  have hc2 : ¬(|t / 1000 - EN / 1000| < |t / 1000 - E / 1000| ∧
      |t / 1000 - EN / 1000| < |t / 1000 - EP / 1000|) := by
    rintro ⟨h1, -⟩
    omega
  rw [if_neg hc1, if_neg hc2]

/-- C1 witness: on day 100 of 2024, one day after the stored epoch, the two
policies agree. -/
theorem minutes_since_epoch_policies_agree_witness :
    yearOfMs (yearStartMs 2024 + 100 * 86400000) = 2024 ∧
    |yearStartMs 2024 + 100 * 86400000 - year_day_to_datetime 2024 100| ≤ 15724800000 ∧
    calculate_minutes_since_epoch (yearStartMs 2024 + 100 * 86400000) 100 =
      calculate_minutes_since_epoch_simple (year_day_to_datetime 2024 100)
        (yearStartMs 2024 + 100 * 86400000) := by
  have hE : year_day_to_datetime 2024 100 = yearStartMs 2024 + 99 * 86400000 := by
    have h := year_day_to_datetime_int 2024 100
    norm_num at h
    exact h
  refine ⟨by decide, ?_, ?_⟩
  · rw [hE]
    decide
  · exact minutes_since_epoch_policies_agree 2024 100 _ (by decide) (by rw [hE]; decide)

/-- C1 counterexample to the claim as stated: 2024-12-31T12:00:00Z lies in
the same calendar year as the stored epoch 2024-01-01T00:00:00Z (day-of-year
1.0 of 2024), yet the nearest-year policy re-anchors to 2025 (-720 minutes)
while the absolute policy measures from the stored epoch (+526320 minutes). -/
theorem nearest_year_vs_absolute_divergence :
    yearOfMs lateDec2024 = yearOfMs epochJan2024 ∧
    calculate_minutes_since_epoch lateDec2024 1 ≠
      calculate_minutes_since_epoch_simple epochJan2024 lateDec2024 := by
  have hE : epochJan2024 = yearStartMs 2024 := by
    unfold epochJan2024
    exact year_day_to_datetime_one 2024
  constructor
  · rw [hE]
    decide
  · unfold calculate_minutes_since_epoch calculate_minutes_since_epoch_simple
    have hy : yearOfMs lateDec2024 = 2024 := by decide
    rw [hy, hE]
    dsimp only
    unfold timestampSec
    rw [year_day_to_datetime_one, year_day_to_datetime_one, year_day_to_datetime_one]
    have hc1 : ¬(|lateDec2024 / 1000 - yearStartMs (2024 - 1) / 1000| <
          |lateDec2024 / 1000 - yearStartMs 2024 / 1000| ∧
        |lateDec2024 / 1000 - yearStartMs (2024 - 1) / 1000| <
          |lateDec2024 / 1000 - yearStartMs (2024 + 1) / 1000|) := by
      decide
    have hc2 : |lateDec2024 / 1000 - yearStartMs (2024 + 1) / 1000| <
          |lateDec2024 / 1000 - yearStartMs 2024 / 1000| ∧
        |lateDec2024 / 1000 - yearStartMs (2024 + 1) / 1000| <
          |lateDec2024 / 1000 - yearStartMs (2024 - 1) / 1000| := by
      decide
    rw [if_neg hc1, if_pos hc2]
    have h1 : lateDec2024 - yearStartMs (2024 + 1) = -43200000 := by decide
    have h2 : lateDec2024 - yearStartMs 2024 = 31579200000 := by decide
    rw [h1, h2]
    norm_num

lemma ratFloor_eq_floor (q : ℚ) : ratFloor q = ⌊q⌋ := by
  rw [ratFloor, Rat.floor_def]

lemma tle_epoch_eval (line : String) (v : ℚ)
    (hlen : 32 ≤ line.length)
    (hparse : parseDecimal (trimChars ((line.toList.drop 18).take 14)) = some v) :
    tle_epoch_from_line1 line =
      some (year_day_to_datetime
        (if 57 ≤ ratFloor (v / 1000) then 1900 + ratFloor (v / 1000)
         else 2000 + ratFloor (v / 1000))
        (v - (ratTrunc (v / 1000) : ℚ) * 1000)) := by
  unfold tle_epoch_from_line1
  rw [if_pos hlen]
  dsimp only
  rw [hparse]

/-- C3: the epoch field is read from characters [18,32) of line 1 as a
decimal `YYDDD.DDDDDDDD`; the two-digit year resolves through the pivot 57
(`24` to 2024, `57` to 1957, `56` to 2056 in the three sample lines, whose
decoded instants land in those calendar years), and day-of-year `d` of year
`Y` decodes to Y-01-01T00:00:00Z plus `d - 1` days, exactly the year start
at `d = 1`. -/
theorem tle_epoch_decoding :
    tle_epoch_from_line1 tleLine24 = some (yearStartMs 2024 + 43200000) ∧
    tle_epoch_from_line1 tleLine57 = some (yearStartMs 1957 + 43200000) ∧
    tle_epoch_from_line1 tleLine56 = some (yearStartMs 2056 + 363 * 86400000) ∧
    yearOfMs (yearStartMs 2024 + 43200000) = 2024 ∧
    yearOfMs (yearStartMs 1957 + 43200000) = 1957 ∧
    yearOfMs (yearStartMs 2056 + 363 * 86400000) = 2056 ∧
    (∀ Y : ℤ, year_day_to_datetime Y 1 = yearStartMs Y) ∧
    (∀ Y d : ℤ, year_day_to_datetime Y (d : ℚ) = yearStartMs Y + (d - 1) * 86400000) := by
  refine ⟨?_, ?_, ?_, by decide, by decide, by decide,
    year_day_to_datetime_one, year_day_to_datetime_int⟩
  · have hp : parseDecimal (trimChars ((tleLine24.toList.drop 18).take 14)) =
        some (mkRat 48003 2) := by decide
    have hv : (mkRat 48003 2 : ℚ) = 48003 / 2 := by
      rw [Rat.mkRat_eq_div]
      norm_num
    rw [hv] at hp
    rw [tle_epoch_eval tleLine24 (48003 / 2) (by decide) hp]
    have hfl : ratFloor ((48003 : ℚ) / 2 / 1000) = 24 := by
      rw [ratFloor_eq_floor]
      norm_num
    have htr : ratTrunc ((48003 : ℚ) / 2 / 1000) = 24 := by
      rw [ratTrunc_nonneg_eq_floor _ (by norm_num)]
      norm_num
    rw [hfl, htr]
    norm_num
    unfold year_day_to_datetime
    have h : ((3 / 2 : ℚ) - 1) * 86400000 = ((43200000 : ℤ) : ℚ) := by norm_num
    rw [h, ratTrunc_intCast]
  · have hp : parseDecimal (trimChars ((tleLine57.toList.drop 18).take 14)) =
        some (mkRat 114003 2) := by decide
    have hv : (mkRat 114003 2 : ℚ) = 114003 / 2 := by
      rw [Rat.mkRat_eq_div]
      norm_num
    rw [hv] at hp
    rw [tle_epoch_eval tleLine57 (114003 / 2) (by decide) hp]
    have hfl : ratFloor ((114003 : ℚ) / 2 / 1000) = 57 := by
      rw [ratFloor_eq_floor]
      norm_num
    have htr : ratTrunc ((114003 : ℚ) / 2 / 1000) = 57 := by
      rw [ratTrunc_nonneg_eq_floor _ (by norm_num)]
      norm_num
    rw [hfl, htr]
    norm_num
    unfold year_day_to_datetime
    have h : ((3 / 2 : ℚ) - 1) * 86400000 = ((43200000 : ℤ) : ℚ) := by norm_num
    rw [h, ratTrunc_intCast]
  · have hp : parseDecimal (trimChars ((tleLine56.toList.drop 18).take 14)) =
        some (mkRat 56364 1) := by decide
    have hv : (mkRat 56364 1 : ℚ) = ((56364 : ℤ) : ℚ) := Rat.mkRat_one 56364
    rw [hv] at hp
    rw [tle_epoch_eval tleLine56 ((56364 : ℤ) : ℚ) (by decide) hp]
    have hfl : ratFloor (((56364 : ℤ) : ℚ) / 1000) = 56 := by
      rw [ratFloor_eq_floor]
      norm_num
    have htr : ratTrunc (((56364 : ℤ) : ℚ) / 1000) = 56 := by
      rw [ratTrunc_nonneg_eq_floor _ (by norm_num)]
      norm_num
    rw [hfl, htr]
    norm_num
    have hday : (364 : ℚ) = ((364 : ℤ) : ℚ) := by norm_num
    rw [hday, year_day_to_datetime_int]
    norm_num
